import Mathlib

/-!
Verification of `prefect_kubernetes/experimental/decorators.py` and of the
work-pool job-submission subsystem described by its specification.

The first part shallowly embeds the `kubernetes` decorator from the source
file: a higher-order function that closes over a work-pool name and a
keyword mapping of job variables and, when the returned decorator is
applied to a flow, makes exactly one call to the library function
`bind_flow_to_infrastructure` with `worker_cls=KubernetesWorker`.

The second part models, from the specification's own words, the adjacent
subsystem the spec designs (Job Spec Builder, Lifecycle Tracker,
Submission Client), since that code is not part of the provided source.
-/

namespace Prefect

/-- A flow object, as produced by the `prefect.flow` decorator. Its internals
are irrelevant to the decorator under study, which passes it through
untouched; we model it by its name. -/
structure Flow where
  name : String
  deriving DecidableEq

/-- Worker classes a flow can be bound to. The decorator under study always
chooses `KubernetesWorker`; other worker classes exist in the wider
repository. -/
inductive WorkerCls where
  | KubernetesWorker
  | ProcessWorker
  | DockerWorker
  deriving DecidableEq

/-- The result of binding a flow to infrastructure: the flow together with
the work-pool name, the job-variables mapping handed to the library call
(`Option` because the library parameter admits an absent mapping), and the
worker class. -/
structure InfrastructureBoundFlow (F α : Type) where
  flow : F
  work_pool : String
  job_variables : Option (List (String × α))
  worker_cls : WorkerCls
  deriving DecidableEq

/-- Modelled from the spec: `bind_flow_to_infrastructure` lives in prefect
core, not under the provided source; the spec describes it as "an explicit
configuration struct attached to a job-request value, built by a pure
function". -/
def bind_flow_to_infrastructure (flow : F) (work_pool : String)
    (job_variables : Option (List (String × α))) (worker_cls : WorkerCls) :
    InfrastructureBoundFlow F α :=
  ⟨flow, work_pool, job_variables, worker_cls⟩

/-- The inner `decorator` function of the source: applied to a flow, it
returns the result of one call to the bound library function `bind`,
forwarding the captured `work_pool` and `job_variables` (always a present
mapping, hence `some`) and fixing `worker_cls` to `KubernetesWorker`. The
library function is a parameter so that theorems hold for every behaviour
of the external collaborator. -/
def decorator (bind : F → String → Option (List (String × α)) → WorkerCls → β)
    (work_pool : String) (job_variables : List (String × α)) : F → β :=
  fun flow => bind flow work_pool (some job_variables) WorkerCls.KubernetesWorker

/-- The `kubernetes` decorator factory from the source: it defines
`decorator` and returns it, performing no other computation. -/
def kubernetes (bind : F → String → Option (List (String × α)) → WorkerCls → β)
    (work_pool : String) (job_variables : List (String × α)) : F → β :=
  decorator bind work_pool job_variables

/-- A record of one call to `bind_flow_to_infrastructure`: the arguments
the decorator hands to the library function. -/
structure BindCall (F α : Type) where
  flow : F
  work_pool : String
  job_variables : Option (List (String × α))
  worker_cls : WorkerCls
  deriving DecidableEq

/-- Call-trace embedding of the source's control flow. Evaluating
`kubernetes(work_pool, **job_variables)` only defines and returns the
inner `decorator`, so the second component (library calls made during
construction) is empty; applying the returned decorator to a flow makes
exactly the one recorded call. -/
def kubernetesCalls (work_pool : String) (job_variables : List (String × α)) :
    (F → List (BindCall F α)) × List (BindCall F α) :=
  (fun flow => [⟨flow, work_pool, some job_variables, WorkerCls.KubernetesWorker⟩], [])

/-- C1: applying the decorator returned by `kubernetes(W, **V)` to a flow
`F` returns exactly the result of
`bind_flow_to_infrastructure(F, work_pool=W, job_variables=V,
worker_cls=KubernetesWorker)`, for every behaviour of the library
function: the pool name and job variables are forwarded unchanged and the
worker class is always `KubernetesWorker`. -/
theorem kubernetes_forwards_to_bind {F α β : Type}
    (bind : F → String → Option (List (String × α)) → WorkerCls → β)
    (W : String) (V : List (String × α)) (flow : F) :
    kubernetes bind W V flow = bind flow W (some V) WorkerCls.KubernetesWorker :=
  rfl

/-- C2: the decorator is deterministic glue. For the same library function
`bind` and equal `work_pool`, `job_variables` and flow inputs, two runs
produce equal results, and the call trace between receiving the inputs and
returning is exactly the one library call: no scheduling, state-machine,
retry, or protocol computation of its own. -/
theorem kubernetes_deterministic {F α β : Type}
    (bind : F → String → Option (List (String × α)) → WorkerCls → β)
    (W₁ W₂ : String) (V₁ V₂ : List (String × α)) (f₁ f₂ : F)
    (hW : W₁ = W₂) (hV : V₁ = V₂) (hf : f₁ = f₂) :
    kubernetes bind W₁ V₁ f₁ = kubernetes bind W₂ V₂ f₂ ∧
    (kubernetesCalls W₁ V₁).1 f₁ =
      [⟨f₁, W₁, some V₁, WorkerCls.KubernetesWorker⟩] := by
  subst hW; subst hV; subst hf
  exact ⟨rfl, rfl⟩

/-- C2 witness: instantiation at a concrete bind function, pool, variables
and flow. -/
theorem kubernetes_deterministic_witness :
    kubernetes (bind_flow_to_infrastructure (F := Flow) (α := String)) "my-pool"
        [("cpu", "2")] (Flow.mk "my-flow") =
      kubernetes bind_flow_to_infrastructure "my-pool" [("cpu", "2")]
        (Flow.mk "my-flow") ∧
    (kubernetesCalls "my-pool" [("cpu", "2")]).1 (Flow.mk "my-flow") =
      [BindCall.mk (Flow.mk "my-flow") "my-pool" (some [("cpu", "2")])
        WorkerCls.KubernetesWorker] :=
  kubernetes_deterministic bind_flow_to_infrastructure "my-pool" "my-pool"
    [("cpu", "2")] [("cpu", "2")] (Flow.mk "my-flow") (Flow.mk "my-flow") rfl rfl rfl

/-- C8: evaluating `kubernetes(W, **V)` by itself performs no binding and
raises no error for any inputs, including the empty pool name (the
embedding is a total function and its construction-time call trace is
empty); the library function is invoked only when the returned decorator
is later applied to a flow. -/
theorem kubernetes_defers_binding {F α : Type}
    (W : String) (V : List (String × α)) :
    (kubernetesCalls (F := F) W V).2 = [] ∧
    (kubernetesCalls (F := F) (α := α) "" V).2 = [] ∧
    ∀ flow : F, (kubernetesCalls W V).1 flow =
      [⟨flow, W, some V, WorkerCls.KubernetesWorker⟩] :=
  ⟨rfl, rfl, fun _ => rfl⟩

/-- C9: the job variables the decorator forwards are always a string-keyed
mapping (the type of `job_variables` keys is `String`, as Python keyword
arguments force) and are always present: the call carries `some V`, never
`none`, and with no keyword arguments it carries the empty mapping
`some []`. -/
theorem kubernetes_job_variables_present {F α : Type}
    (W : String) (V : List (String × α)) (flow : F) :
    ((kubernetesCalls W V).1 flow).map (fun c => c.job_variables) = [some V] ∧
    some V ≠ (none : Option (List (String × α))) ∧
    ((kubernetesCalls (α := α) W []).1 flow).map (fun c => c.job_variables) =
      [some ([] : List (String × α))] :=
  ⟨rfl, fun h => Option.noConfusion h, rfl⟩

/-- C10: the decorator neither modifies its input flow nor the captured
arguments: each application passes the flow through as-is, and two
applications of the same decorator to different flows carry the identical
`work_pool` value and the identical `job_variables` mapping. -/
theorem kubernetes_frame {F α : Type}
    (W : String) (V : List (String × α)) (f₁ f₂ : F) :
    ((kubernetesCalls W V).1 f₁).map (fun c => c.flow) = [f₁] ∧
    ((kubernetesCalls W V).1 f₁).map (fun c => (c.work_pool, c.job_variables)) =
      ((kubernetesCalls W V).1 f₂).map (fun c => (c.work_pool, c.job_variables)) :=
  ⟨rfl, rfl⟩

/-! ### Job Spec Builder (modelled from the spec)

The builder is part of the subsystem the specification designs; its code is
not under the provided source, so the definitions below are modelled from
the spec's words. Variable mappings are association lists with `String`
keys (a key occurs at most once, as in a Python dict). -/

/-- Membership test for a list of strings, by decidable string equality. -/
def memStr : List String → String → Bool
  | [], _ => false
  | s :: rest, k => if s = k then true else memStr rest k

/-- Key lookup in a string-keyed association list. -/
def lookupVar : List (String × α) → String → Option α
  | [], _ => none
  | p :: rest, k => if p.1 = k then some p.2 else lookupVar rest k

/-- Set key `k` to value `v` in a string-keyed association list: replace
the entry at `k` in place if present, append it otherwise (Python dict
update semantics). -/
def setVar : List (String × α) → String → α → List (String × α)
  | [], k, v => [(k, v)]
  | p :: rest, k, v => if p.1 = k then (k, v) :: rest else p :: setVar rest k v

/-- Modelled from the spec: the merge algorithm of `build` "starts from
`pool.default_variables`, overlays `vars` key-by-key" with
override-wins-on-conflict semantics. -/
def mergeVariables (defaults overrides : List (String × α)) : List (String × α) :=
  overrides.foldl (fun acc p => setVar acc p.1 p.2) defaults

theorem memStr_iff (l : List String) (k : String) : memStr l k = true ↔ k ∈ l := by
  induction l with
  | nil => simp [memStr]
  | cons s rest ih =>
    by_cases h : s = k
    · simp [memStr, h]
    · have h' : k ≠ s := fun hk => h hk.symm
      simp [memStr, h, ih, h']

theorem lookupVar_eq_none_of_not_mem (l : List (String × α)) (k : String)
    (h : k ∉ l.map Prod.fst) : lookupVar l k = none := by
  induction l with
  | nil => rfl
  | cons p rest ih =>
    simp only [List.map_cons, List.mem_cons, not_or] at h
    have hne : p.1 ≠ k := fun hk => h.1 hk.symm
    simp [lookupVar, hne, ih h.2]

theorem lookupVar_setVar_self (m : List (String × α)) (k : String) (v : α) :
    lookupVar (setVar m k v) k = some v := by
  induction m with
  | nil => simp [setVar, lookupVar]
  | cons p rest ih =>
    by_cases h : p.1 = k
    · simp [setVar, h, lookupVar]
    · simp [setVar, h, lookupVar, ih]

theorem lookupVar_setVar_ne (m : List (String × α)) (k k' : String) (v : α)
    (h : k ≠ k') : lookupVar (setVar m k v) k' = lookupVar m k' := by
  induction m with
  | nil => simp [setVar, lookupVar, h]
  | cons p rest ih =>
    by_cases hp : p.1 = k
    · simp [setVar, hp, lookupVar, h]
    · simp only [setVar, hp, if_false, lookupVar]
      by_cases hp' : p.1 = k' <;> simp [hp', ih]

/-- Override-wins characterisation of the merge: with no duplicate override
keys, looking up any key in the merged mapping gives the override value if
the key is overridden and the default value otherwise. -/
theorem lookupVar_mergeVariables (defaults overrides : List (String × α))
    (k : String) (h : (overrides.map Prod.fst).Nodup) :
    lookupVar (mergeVariables defaults overrides) k =
      (lookupVar overrides k).or (lookupVar defaults k) := by
  induction overrides generalizing defaults with
  | nil => simp [mergeVariables, lookupVar]
  | cons p rest ih =>
    simp only [List.map_cons, List.nodup_cons] at h
    have hmerge : mergeVariables defaults (p :: rest) =
        mergeVariables (setVar defaults p.1 p.2) rest := rfl
    rw [hmerge, ih _ h.2]
    by_cases hk : p.1 = k
    · subst hk
      have hrest : lookupVar rest p.1 = none :=
        lookupVar_eq_none_of_not_mem rest p.1 h.1
      simp [lookupVar, hrest, lookupVar_setVar_self]
    · simp [lookupVar, hk, lookupVar_setVar_ne defaults p.1 k p.2 hk]

/-- Modelled from the spec: a base job template, reduced to the data the
builder consults — its declared variable set (the template's
placeholders). -/
structure BaseJobTemplate where
  declared_variables : List String
  deriving DecidableEq

/-- Modelled from the spec: a WorkPool is `{name, base_job_template,
default_variables}`, immutable once fetched. -/
structure WorkPool (α : Type) where
  name : String
  base_job_template : BaseJobTemplate
  default_variables : List (String × α)
  deriving DecidableEq

/-- Modelled from the spec: a ResolvedJobSpec is the fully merged,
validated variable assignment ready for submission. -/
structure ResolvedJobSpec (α : Type) where
  vars : List (String × α)
  deriving DecidableEq

/-- Errors of the Job Spec Builder, from the spec's error taxonomy. -/
inductive BuildError where
  | UnknownVariableError
  | UnresolvedTemplateError
  deriving DecidableEq

/-- Modelled from the spec: `build(pool, vars)` starts from
`pool.default_variables` and overlays `vars` key-by-key; any key of
`vars` absent from the template's declared variable set fails with
`UnknownVariableError`; substitution must be total — every declared
placeholder must resolve from the merged mapping or the build fails with
`UnresolvedTemplateError`, never producing a partially-substituted spec. -/
def build (pool : WorkPool α) (vars : List (String × α)) :
    Except BuildError (ResolvedJobSpec α) :=
  if vars.all (fun p => memStr pool.base_job_template.declared_variables p.1) then
    let merged := mergeVariables pool.default_variables vars
    if pool.base_job_template.declared_variables.all
        (fun k => (lookupVar merged k).isSome) then
      Except.ok ⟨merged⟩
    else
      Except.error BuildError.UnresolvedTemplateError
  else
    Except.error BuildError.UnknownVariableError

/-- The work pool of the spec's worked scenario: name `"my-pool"`, base
template declaring `{"image", "cpu"}`, default vars
`{"image": "base:latest"}`. -/
def myPool : WorkPool String :=
  ⟨"my-pool", ⟨["image", "cpu"]⟩, [("image", "base:latest")]⟩

/-- C3: `build` merges by starting from the pool's `default_variables` and
overlaying the supplied `vars` key-by-key with override-wins
semantics — every key resolves to the override value when overridden and
the default value otherwise — and on the spec's scenario (pool `"my-pool"`
with default `{"image": "base:latest"}`, supplied `{"cpu": "2"}`, declared
set `{"image", "cpu"}`) the resolved spec is exactly
`{"image": "base:latest", "cpu": "2"}`. -/
theorem build_merges_override_wins :
    (∀ (pool : WorkPool String) (vars : List (String × String))
        (spec : ResolvedJobSpec String) (k : String),
        (vars.map Prod.fst).Nodup →
        build pool vars = Except.ok spec →
        lookupVar spec.vars k =
          (lookupVar vars k).or (lookupVar pool.default_variables k)) ∧
    build myPool [("cpu", "2")] =
      Except.ok ⟨[("image", "base:latest"), ("cpu", "2")]⟩ := by
  constructor
  · intro pool vars spec k hnodup hok
    unfold build at hok
    by_cases hall :
        vars.all (fun p => memStr pool.base_job_template.declared_variables p.1)
    · rw [if_pos hall] at hok
      by_cases hsub : pool.base_job_template.declared_variables.all
          (fun k => (lookupVar (mergeVariables pool.default_variables vars) k).isSome)
      · rw [if_pos hsub] at hok
        cases hok
        exact lookupVar_mergeVariables pool.default_variables vars k hnodup
      · rw [if_neg hsub] at hok
        exact absurd hok (by simp)
    · rw [if_neg hall] at hok
      exact absurd hok (by simp)
  · rfl

/-- C3 witness: the override-wins characterisation applied to the spec's
scenario at key `"cpu"`, with both hypotheses discharged on concrete
data. -/
theorem build_merges_override_wins_witness :
    lookupVar ([("image", "base:latest"), ("cpu", "2")] : List (String × String)) "cpu" =
      (lookupVar [("cpu", "2")] "cpu").or
        (lookupVar (myPool).default_variables "cpu") :=
  build_merges_override_wins.1 myPool [("cpu", "2")]
    ⟨[("image", "base:latest"), ("cpu", "2")]⟩ "cpu" (by decide) rfl

/-- C4: whenever `vars` contains a key absent from the pool's declared
variable set, `build` fails with `UnknownVariableError` and produces no
resolved spec. -/
theorem build_rejects_unknown_variable (pool : WorkPool α)
    (vars : List (String × α))
    (h : ∃ p ∈ vars, p.1 ∉ pool.base_job_template.declared_variables) :
    build pool vars = Except.error BuildError.UnknownVariableError := by
  obtain ⟨p, hp, habs⟩ := h
  have hfalse : ¬ (vars.all
      (fun p => memStr pool.base_job_template.declared_variables p.1) = true) := by
    rw [List.all_eq_true]
    intro hall
    exact habs ((memStr_iff _ _).mp (hall p hp))
  unfold build
  rw [if_neg hfalse]

/-- C4 witness: on the spec's second scenario — pool `"my-pool"`, supplied
vars `{"unknown_key": "x"}` — the build fails with
`UnknownVariableError`. -/
theorem build_rejects_unknown_variable_witness :
    build myPool [("unknown_key", "x")] =
      Except.error BuildError.UnknownVariableError :=
  build_rejects_unknown_variable myPool [("unknown_key", "x")] (by decide)

/-- C5: `build` is deterministic. For any pool and vars whose keys all
belong to the declared set, any two resolved specs obtained from the same
inputs are identical; immutability of a ResolvedJobSpec after creation
holds by construction, the model being purely functional. -/
theorem build_deterministic (pool : WorkPool α) (vars : List (String × α))
    (_hkeys : ∀ p ∈ vars, p.1 ∈ pool.base_job_template.declared_variables)
    (s₁ s₂ : ResolvedJobSpec α)
    (h₁ : build pool vars = Except.ok s₁)
    (h₂ : build pool vars = Except.ok s₂) : s₁ = s₂ := by
  rw [h₁] at h₂
  exact (Except.ok.injEq .. ▸ h₂ : s₁ = s₂).symm ▸ rfl

/-- C5 witness: two builds on the scenario inputs yield the same spec. -/
theorem build_deterministic_witness :
    (⟨[("image", "base:latest"), ("cpu", "2")]⟩ : ResolvedJobSpec String) =
      ⟨[("image", "base:latest"), ("cpu", "2")]⟩ :=
  build_deterministic myPool [("cpu", "2")] (by decide) _ _ rfl rfl

/-! ### Lifecycle Tracker (modelled from the spec) -/

/-- The lifecycle states of a JobRecord, in the spec's listed order. -/
inductive JobState where
  | PENDING
  | SUBMITTED
  | RUNNING
  | SUCCEEDED
  | FAILED
  | CANCELLED
  deriving DecidableEq

/-- A state from which no further transition occurs. -/
def isTerminal : JobState → Bool
  | JobState.SUCCEEDED => true
  | JobState.FAILED => true
  | JobState.CANCELLED => true
  | _ => false

/-- Position of a state in the spec's listed order (all terminal states
share the last position). -/
def stateRank : JobState → Nat
  | JobState.PENDING => 0
  | JobState.SUBMITTED => 1
  | JobState.RUNNING => 2
  | _ => 3

/-- Modelled from the spec: the Lifecycle Tracker's per-JobRecord state
machine. PENDING →(submit success)→ SUBMITTED →(control plane reports
running)→ RUNNING →(terminal signal)→ {SUCCEEDED, FAILED, CANCELLED};
additionally, a job whose terminal state cannot be determined within the
detection timeout is marked FAILED rather than left pending, and a
not-yet-running job cancelled during shutdown becomes CANCELLED. -/
inductive JobTransition : JobState → JobState → Prop where
  | submit_success : JobTransition JobState.PENDING JobState.SUBMITTED
  | report_running : JobTransition JobState.SUBMITTED JobState.RUNNING
  | succeed : JobTransition JobState.RUNNING JobState.SUCCEEDED
  | fail : JobTransition JobState.RUNNING JobState.FAILED
  | cancel_running : JobTransition JobState.RUNNING JobState.CANCELLED
  | cancel_submitted : JobTransition JobState.SUBMITTED JobState.CANCELLED
  | timeout_pending : JobTransition JobState.PENDING JobState.FAILED
  | timeout_submitted : JobTransition JobState.SUBMITTED JobState.FAILED

/-- C6: JobRecord states move monotonically forward through the listed
order (every transition strictly increases the state's rank), terminal
states are absorbing (no transition leaves them), and RUNNING is entered
only from SUBMITTED — so no record is ever RUNNING before it was
SUBMITTED. -/
theorem jobrecord_transitions_monotone :
    (∀ s t, JobTransition s t → stateRank s < stateRank t) ∧
    (∀ s t, isTerminal s = true → ¬ JobTransition s t) ∧
    (∀ s, JobTransition s JobState.RUNNING → s = JobState.SUBMITTED) := by
  refine ⟨?_, ?_, ?_⟩
  · intro s t h
    cases h <;> decide
  · intro s t hter h
    cases h <;> simp [isTerminal] at hter
  · intro s h
    cases h
    rfl

/-- C6 witness: the monotonicity facts applied to concrete transitions —
submission strictly advances the rank, and no transition leaves the
terminal state SUCCEEDED. -/
theorem jobrecord_transitions_monotone_witness :
    stateRank JobState.PENDING < stateRank JobState.SUBMITTED ∧
    ¬ JobTransition JobState.SUCCEEDED JobState.RUNNING :=
  ⟨jobrecord_transitions_monotone.1 JobState.PENDING JobState.SUBMITTED
      JobTransition.submit_success,
    jobrecord_transitions_monotone.2.1 JobState.SUCCEEDED JobState.RUNNING rfl⟩

/-! ### Submission Client (modelled from the spec) -/

/-- A job spec as submitted to the control plane: the client-assigned
idempotency token embedded in the spec, plus the resolved document. -/
structure SubmitSpec (α : Type) where
  idempotency_token : String
  document : List (String × α)
  deriving DecidableEq

/-- The control plane's view: live jobs keyed by the idempotency token of
the spec that created them, and a counter for fresh job ids. -/
structure ControlPlane where
  live_jobs : List (String × Nat)
  next_id : Nat
  deriving DecidableEq

/-- Modelled from the spec: the Submission Client's `submit`. A retry with
a token that already landed first finds the prior job and returns its
handle instead of creating a duplicate; only a token with no live job
creates a new resource. -/
def submit (cp : ControlPlane) (spec : SubmitSpec α) : ControlPlane × Nat :=
  match lookupVar cp.live_jobs spec.idempotency_token with
  | some handle => (cp, handle)
  | none =>
      (⟨cp.live_jobs ++ [(spec.idempotency_token, cp.next_id)], cp.next_id + 1⟩,
        cp.next_id)

theorem lookupVar_append (l₁ l₂ : List (String × α)) (k : String) :
    lookupVar (l₁ ++ l₂) k = (lookupVar l₁ k).or (lookupVar l₂ k) := by
  induction l₁ with
  | nil => simp [lookupVar]
  | cons p rest ih =>
    by_cases h : p.1 = k <;> simp [lookupVar, h, ih]

theorem submit_of_found (cp : ControlPlane) (spec : SubmitSpec α) (handle : Nat)
    (h : lookupVar cp.live_jobs spec.idempotency_token = some handle) :
    submit cp spec = (cp, handle) := by
  unfold submit
  rw [h]

theorem submit_lands_token (cp : ControlPlane) (spec : SubmitSpec α) :
    lookupVar (submit cp spec).1.live_jobs spec.idempotency_token =
      some (submit cp spec).2 := by
  unfold submit
  cases hl : lookupVar cp.live_jobs spec.idempotency_token with
  | some handle => simpa using hl
  | none => simp [lookupVar_append, hl, lookupVar]

/-- C7: submitting twice with the same idempotency token never yields two
live jobs. The second call finds the job the first attempt landed and
creates nothing: the control-plane state is unchanged, the same handle is
returned, and across both calls at most one live job was added. -/
theorem submit_idempotent (cp : ControlPlane) (s s' : SubmitSpec α)
    (h : s'.idempotency_token = s.idempotency_token) :
    (submit (submit cp s).1 s').1 = (submit cp s).1 ∧
    (submit (submit cp s).1 s').2 = (submit cp s).2 ∧
    (submit (submit cp s).1 s').1.live_jobs.length ≤ cp.live_jobs.length + 1 := by
  have hfound : lookupVar (submit cp s).1.live_jobs s'.idempotency_token =
      some (submit cp s).2 := by
    rw [h]; exact submit_lands_token cp s
  have hsecond : submit (submit cp s).1 s' = ((submit cp s).1, (submit cp s).2) :=
    submit_of_found (submit cp s).1 s' (submit cp s).2 hfound
  refine ⟨by rw [hsecond], by rw [hsecond], ?_⟩
  rw [hsecond]
  show (submit cp s).1.live_jobs.length ≤ cp.live_jobs.length + 1
  unfold submit
  cases hl : lookupVar cp.live_jobs s.idempotency_token with
  | some handle => simp
  | none => simp

/-- C7 witness: a retry of the scenario submission with the same token
`"tok"` against an initially empty control plane changes nothing, returns
the same handle, and leaves a single live job. -/
theorem submit_idempotent_witness :
    (submit (submit (ControlPlane.mk [] 0)
          (SubmitSpec.mk "tok" [("image", "base:latest")])).1
        (SubmitSpec.mk "tok" [("cpu", "2")])).1 =
      (submit (ControlPlane.mk [] 0)
        (SubmitSpec.mk "tok" [("image", "base:latest")])).1 ∧
    (submit (submit (ControlPlane.mk [] 0)
          (SubmitSpec.mk "tok" [("image", "base:latest")])).1
        (SubmitSpec.mk "tok" [("cpu", "2")])).2 =
      (submit (ControlPlane.mk [] 0)
        (SubmitSpec.mk "tok" [("image", "base:latest")])).2 ∧
    (submit (submit (ControlPlane.mk [] 0)
          (SubmitSpec.mk "tok" [("image", "base:latest")])).1
        (SubmitSpec.mk "tok" [("cpu", "2")])).1.live_jobs.length ≤
      (ControlPlane.mk [] 0).live_jobs.length + 1 :=
  submit_idempotent (ControlPlane.mk [] 0)
    (SubmitSpec.mk "tok" [("image", "base:latest")])
    (SubmitSpec.mk "tok" [("cpu", "2")]) rfl

end Prefect
